import Mathlib

/-!
Verification of the GPU queue virtualization and submission pipeline of GPCS4.

The definitions below are shallow embeddings of:

- the resource usage tracker `VltResource`
  (src/GPCS4/Graphics/Violet/VltResource.h);
- the virtual compute-queue manager and submission pipeline of `SceGnmDriver`
  (src/GPCS4/Graphics/Sce/SceGnmDriver.cpp):
  `mapComputeQueue`, `unmapComputeQueue`, `submitAndFlipCommandBuffers`
  and `submitPresent`.

Machine integers: the use counters, ids and sizes are C++ `uint32_t`;
they are modelled as `Nat` with explicit reduction modulo `2 ^ 32`
wherever the source arithmetic can wrap (counter increment/decrement,
the slot-index subtraction in `unmapComputeQueue`).  Pointers
(`ringBaseAddr`, `readPtrAddr`, DCB addresses) are modelled as `Nat`
addresses; the source only ever inspects their value via `uintptr_t`
casts and alignment tests.
-/

/-- Cardinality of `uint32_t`, i.e. `2 ^ 32`. -/
def uint32Mod : Nat := 4294967296

/-- Access type, from `enum class VltAccess` in VltResource.h
(`Read = 0, Write = 1, None = 2`). -/
inductive VltAccess where
  | Read
  | Write
  | None
  deriving DecidableEq

/-- State of a `VltResource`: the two atomic `uint32_t` use counters
`m_useCountR` and `m_useCountW` of VltResource.h. -/
structure VltResource where
  useCountR : Nat
  useCountW : Nat
  deriving DecidableEq

/-- `VltResource::isInUse` (VltResource.h, lines 40-46):
`result = m_useCountW.load() != 0; if (access == Read) result |= m_useCountR.load() != 0`. -/
def VltResource.isInUse (r : VltResource) (access : VltAccess) : Bool :=
  let result := decide (r.useCountW ≠ 0)
  if access = VltAccess.Read then result || decide (r.useCountR ≠ 0) else result

/-- `VltResource::acquire` (VltResource.h, lines 54-62): for `access ≠ None`,
increment the matching counter (`uint32_t` arithmetic, hence the modulus). -/
def VltResource.acquire (r : VltResource) (access : VltAccess) : VltResource :=
  if access ≠ VltAccess.None then
    if access = VltAccess.Read then
      { r with useCountR := (r.useCountR + 1) % uint32Mod }
    else
      { r with useCountW := (r.useCountW + 1) % uint32Mod }
  else
    r

/-- `VltResource::release` (VltResource.h, lines 70-78): for `access ≠ None`,
decrement the matching counter; an unsigned decrement of `0` wraps to
`2 ^ 32 - 1`, which the embedding makes explicit. -/
def VltResource.release (r : VltResource) (access : VltAccess) : VltResource :=
  if access ≠ VltAccess.None then
    if access = VltAccess.Read then
      { r with useCountR := (r.useCountR + (uint32Mod - 1)) % uint32Mod }
    else
      { r with useCountW := (r.useCountW + (uint32Mod - 1)) % uint32Mod }
  else
    r

/-- Modelled from the spec: `util::sync::spin` is declared in UtilSync.h, which
is not among the sources at hand; per the spec it busy-polls the given
predicate up to the retry budget and then returns regardless of success.
`spinPolls budget pred` is the number of polls performed when the i-th poll
observes `pred i`: polling stops early as soon as a poll succeeds and never
exceeds the budget. -/
def spinPolls : Nat → (Nat → Bool) → Nat
  | 0, _ => 0
  | b + 1, pred => if pred 0 then 1 else 1 + spinPolls b (fun i => pred (i + 1))

/-- The spin-retry budget passed by `VltResource::waitIdle`
(VltResource.h, line 89: `util::sync::spin(50000, ...)`). -/
def waitIdleSpinCount : Nat := 50000

/-- Poll count of `VltResource::waitIdle` against a time-indexed observation
`obs` of the resource state (modelling concurrent counter updates by other
threads): each poll i evaluates `!isInUse (obs i) access`. -/
def waitIdlePolls (obs : Nat → VltResource) (access : VltAccess) : Nat :=
  spinPolls waitIdleSpinCount (fun i => ! (obs i).isInUse access)

/-- `VltResource::waitIdle` (VltResource.h, lines 87-91): a `const` method; it
returns the resource state unchanged together with the number of polls
performed when no other thread changes the counters. -/
def VltResource.waitIdle (r : VltResource) (access : VltAccess) : VltResource × Nat :=
  (r, waitIdlePolls (fun _ => r) access)

theorem spinPolls_le (budget : Nat) : ∀ pred : Nat → Bool, spinPolls budget pred ≤ budget := by
  induction budget with
  | zero => intro pred; simp [spinPolls]
  | succ b ih =>
    intro pred
    simp only [spinPolls]
    split
    · omega
    · have := ih (fun i => pred (i + 1))
      omega

theorem spinPolls_all_false (budget : Nat) :
    ∀ pred : Nat → Bool, (∀ i, pred i = false) → spinPolls budget pred = budget := by
  induction budget with
  | zero => intro pred _; simp [spinPolls]
  | succ b ih =>
    intro pred hall
    simp only [spinPolls, hall 0]
    simp [ih (fun i => pred (i + 1)) (fun i => hall (i + 1))]
    omega

/-- Claim C7: for every resource state, `isInUse Write` is true iff the write
counter is nonzero, and `isInUse Read` is true iff the read counter or the
write counter is nonzero.  `isInUse` is a pure function of the state (it
returns a `Bool` and no state), so it modifies neither counter. -/
theorem isInUse_characterization (r : VltResource) :
    (r.isInUse VltAccess.Write = true ↔ r.useCountW ≠ 0)
    ∧ (r.isInUse VltAccess.Read = true ↔ (r.useCountR ≠ 0 ∨ r.useCountW ≠ 0)) := by
  constructor
  · simp [VltResource.isInUse]
  · simp [VltResource.isInUse]
    tauto

/-- Claim C8: from the all-zero state, after `acquire Write` then
`acquire Read` both `isInUse Read` and `isInUse Write` are true; after the two
matching `release` calls both are false; and on every state, `acquire None`
and `release None` leave the counters unchanged. -/
theorem acquire_release_cycle :
    ((((⟨0, 0⟩ : VltResource).acquire VltAccess.Write).acquire VltAccess.Read).isInUse
        VltAccess.Read = true
      ∧ (((⟨0, 0⟩ : VltResource).acquire VltAccess.Write).acquire VltAccess.Read).isInUse
        VltAccess.Write = true
      ∧ (((((⟨0, 0⟩ : VltResource).acquire VltAccess.Write).acquire VltAccess.Read).release
          VltAccess.Read).release VltAccess.Write).isInUse VltAccess.Read = false
      ∧ (((((⟨0, 0⟩ : VltResource).acquire VltAccess.Write).acquire VltAccess.Read).release
          VltAccess.Read).release VltAccess.Write).isInUse VltAccess.Write = false)
    ∧ ∀ r : VltResource, r.acquire VltAccess.None = r ∧ r.release VltAccess.None = r := by
  refine ⟨by decide, fun r => ⟨?_, ?_⟩⟩
  · simp [VltResource.acquire]
  · simp [VltResource.release]

/-- Claim C9: `waitIdle` polls `isInUse` at most `waitIdleSpinCount` times and
then returns regardless of the counter state; in particular when the observed
resource never becomes idle it performs exactly the full budget of polls and
still returns, and it leaves the resource state unchanged. -/
theorem waitIdle_bounded_retries (obs : Nat → VltResource) (access : VltAccess) :
    waitIdlePolls obs access ≤ waitIdleSpinCount
    ∧ ((∀ i, (obs i).isInUse access = true) →
        waitIdlePolls obs access = waitIdleSpinCount)
    ∧ ∀ r : VltResource, (r.waitIdle access).1 = r := by
  refine ⟨spinPolls_le waitIdleSpinCount _, fun hbusy => ?_, fun r => rfl⟩
  exact spinPolls_all_false waitIdleSpinCount _ (fun i => by simp [hbusy i])

/-- Witness for C9: a resource whose write counter stays at 1 is never idle,
and `waitIdle` still returns after exactly the full spin budget of polls. -/
theorem waitIdle_bounded_retries_witness :
    waitIdlePolls (fun _ => ⟨0, 1⟩) VltAccess.Read = waitIdleSpinCount :=
  (waitIdle_bounded_retries (fun _ => ⟨0, 1⟩) VltAccess.Read).2.1 (fun _ => rfl)

/-- Claim C10: `isInUse` with `access = None` coincides with
`isInUse Write`: the write-counter test is unconditional in the source and
the read counter is only consulted when `access = Read`. -/
theorem isInUse_none_as_write (r : VltResource) :
    r.isInUse VltAccess.None = r.isInUse VltAccess.Write := rfl

/-- Modelled from the spec: the constants `MaxPipeId`, `MaxQueueId`,
`VQueueIdBegin` and `MaxComputeQueueCount` are declared in SceGnmDriver.h,
which is not among the sources at hand; only their existence and role are
specified ("an integer composed of a pipe id (0..MaxPipeId-1) and a queue id
(0..MaxQueueId-1), offset by a base constant, bounded by
MaxComputeQueueCount"), so the development is parametric in them. -/
structure QueueConsts where
  maxPipeId : Nat
  maxQueueId : Nat
  vQueueIdBegin : Nat
  maxComputeQueueCount : Nat
  deriving DecidableEq

/-- The virtual queue id computed on the success path of
`SceGnmDriver::mapComputeQueue` (SceGnmDriver.cpp, line 224):
`vqueueId = VQueueIdBegin + pipeId * MaxPipeId + queueId`. -/
def idOf (c : QueueConsts) (pipeId queueId : Nat) : Nat :=
  c.vQueueIdBegin + pipeId * c.maxPipeId + queueId

/-- Modelled from the spec: well-formedness of the (unknown) queue constants.
The spec requires the identifier space to map "1:1 to a slot in a fixed-size
array" and every id of a valid (pipe, queue) pair to lie below
`MaxComputeQueueCount`; this is stated here for the id map the source
computes. -/
abbrev QueueConsts.wf (c : QueueConsts) : Prop :=
  (∀ p < c.maxPipeId, ∀ q < c.maxQueueId, idOf c p q < c.maxComputeQueueCount)
  ∧ (∀ p < c.maxPipeId, ∀ q < c.maxQueueId, ∀ u < c.maxPipeId, ∀ v < c.maxQueueId,
      (idOf c p q = idOf c u v ↔ (p = u ∧ q = v)))

/-- Modelled from the spec: `util::isPowerOfTwo` is declared in UtilMath.h,
which is not among the sources at hand; the spec only requires that
`ringSizeInDW` "is a power of two" (so zero is rejected). -/
def isPowerOfTwo (n : Nat) : Bool :=
  n != 0 && (n &&& (n - 1)) == 0

/-- Modelled from the spec: the error sentinels
`SCE_GNM_ERROR_COMPUTEQUEUE_INVALID_{PIPE_ID, QUEUE_ID, RING_BASE_ADDR,
RING_SIZE, READ_PTR_ADDR}` are defined in sce_errors.h, which is not among
the sources at hand; the spec says each validation failure has "its own
distinct error code", which the distinct constructors realize. -/
inductive GnmMapError where
  | invalidPipeId
  | invalidQueueId
  | invalidRingBaseAddr
  | invalidRingSize
  | invalidReadPtrAddr
  deriving DecidableEq

/-- Result of `mapComputeQueue`.  The C++ function returns a single
`uint32_t`; `ok` is the id returned on the success path, `err` one of the
negative error sentinels, and `overflowId` marks the branch at
SceGnmDriver.cpp lines 225-229 that breaks out after the bound check fails,
returning the already-computed (too large) id value itself. -/
inductive GnmMapResult where
  | ok (vqueueId : Nat)
  | err (e : GnmMapError)
  | overflowId (vqueueId : Nat)
  deriving DecidableEq

/-- Queue-manager state touched by `mapComputeQueue`/`unmapComputeQueue`:
guest memory (an association list of word writes, most recent first, standing
for the `*(uint32_t*)readPtrAddr = 0` store) and the fixed arena
`m_computeQueues` of compute-queue slots (`true` = slot populated). -/
structure GnmDriverState where
  mem : List (Nat × Nat)
  computeQueues : List Bool
  deriving DecidableEq

/-- A 32-bit word store to guest memory at the given address. -/
def memWrite (m : List (Nat × Nat)) (addr val : Nat) : List (Nat × Nat) :=
  (addr, val) :: m

/-- `SceGnmDriver::mapComputeQueue` (SceGnmDriver.cpp, lines 183-238):
five ordered validations, then the `*(uint32_t*)readPtrAddr = 0` store, then
the id computation with its upper-bound check, then slot population at index
`vqueueId - VQueueIdBegin`.  Note that the read-pointer store at line 222
happens before the bound check at line 225, so the `overflowId` branch
returns with the store already performed. -/
def mapComputeQueue (c : QueueConsts) (s : GnmDriverState)
    (pipeId queueId ringBaseAddr ringSizeInDW readPtrAddr : Nat) :
    GnmMapResult × GnmDriverState :=
  if c.maxPipeId ≤ pipeId then
    (GnmMapResult.err GnmMapError.invalidPipeId, s)
  else if c.maxQueueId ≤ queueId then
    (GnmMapResult.err GnmMapError.invalidQueueId, s)
  else if ringBaseAddr % 256 ≠ 0 then
    (GnmMapResult.err GnmMapError.invalidRingBaseAddr, s)
  else if isPowerOfTwo ringSizeInDW = false then
    (GnmMapResult.err GnmMapError.invalidRingSize, s)
  else if readPtrAddr % 4 ≠ 0 then
    (GnmMapResult.err GnmMapError.invalidReadPtrAddr, s)
  else if c.maxComputeQueueCount ≤ idOf c pipeId queueId then
    (GnmMapResult.overflowId (idOf c pipeId queueId),
      { s with mem := memWrite s.mem readPtrAddr 0 })
  else
    (GnmMapResult.ok (idOf c pipeId queueId),
      { mem := memWrite s.mem readPtrAddr 0,
        computeQueues :=
          s.computeQueues.set (idOf c pipeId queueId - c.vQueueIdBegin) true })

/-- The first violated precondition of `mapComputeQueue` in the order stated
by the claim: pipe id, queue id, ring base alignment, ring size power of two,
read pointer alignment; `none` when all five validations pass. -/
def firstViolation (c : QueueConsts)
    (pipeId queueId ringBaseAddr ringSizeInDW readPtrAddr : Nat) :
    Option GnmMapError :=
  if c.maxPipeId ≤ pipeId then some GnmMapError.invalidPipeId
  else if c.maxQueueId ≤ queueId then some GnmMapError.invalidQueueId
  else if ringBaseAddr % 256 ≠ 0 then some GnmMapError.invalidRingBaseAddr
  else if isPowerOfTwo ringSizeInDW = false then some GnmMapError.invalidRingSize
  else if readPtrAddr % 4 ≠ 0 then some GnmMapError.invalidReadPtrAddr
  else none

/-- The error component of a `GnmMapResult`: the error sentinel for the five
validation failures, `none` for the success and overflow branches (both of
which return the computed id value in C++). -/
def GnmMapResult.errPart : GnmMapResult → Option GnmMapError
  | .err e => some e
  | _ => none

/-- Whether a `GnmMapResult` is a failure to map (anything but the success
branch that populates a slot). -/
def GnmMapResult.isFailure : GnmMapResult → Bool
  | .ok _ => false
  | _ => true

/-- The compute-queue slot index computed by `SceGnmDriver::unmapComputeQueue`
(SceGnmDriver.cpp, line 250): `vqueueIndex = vqueueId - VQueueIdBegin` in
`uint32_t` arithmetic, which wraps around for `vqueueId < VQueueIdBegin`. -/
def unmapSlotIndex (c : QueueConsts) (vqueueId : Nat) : Nat :=
  (vqueueId + (uint32Mod - c.vQueueIdBegin)) % uint32Mod

/-- `SceGnmDriver::unmapComputeQueue` (SceGnmDriver.cpp, lines 240-254): the
only bounds check is `vqueueId >= MaxComputeQueueCount` (error logged, no
state change); otherwise the slot at the wrapped index is cleared.  The
returned `Bool` records whether the error was reported (the `LOG_ERR`
branch).  An index beyond the arena is an out-of-bounds access in C++; the
embedding's `List.set` conservatively leaves the arena unchanged there. -/
def unmapComputeQueue (c : QueueConsts) (s : GnmDriverState) (vqueueId : Nat) :
    Bool × GnmDriverState :=
  if c.maxComputeQueueCount ≤ vqueueId then
    (true, s)
  else
    (false,
      { s with computeQueues := s.computeQueues.set (unmapSlotIndex c vqueueId) false })

/-- Modelled from the spec: a concrete, spec-conformant instantiation of the
unknown constants for evaluation purposes, with the base constant positive
("offset by a base constant"; id 0 is the one real graphics queue): two
pipes, two queues per pipe, ids starting at 1, arena bound 8. -/
def cDemo : QueueConsts := ⟨2, 2, 1, 8⟩

/-- A demonstration state: no memory writes yet, an arena of 8 empty slots. -/
def sDemo : GnmDriverState := ⟨[], List.replicate 8 false⟩

/-- Claim C1: `mapComputeQueue` checks its preconditions in the fixed order
pipe id, queue id, ring base alignment (256), ring size power of two, read
pointer alignment (4), and every input violating at least one precondition
gets exactly the error code of the first violated one; the five error codes
are pairwise distinct. -/
theorem mapComputeQueue_first_violation_order (c : QueueConsts) (s : GnmDriverState)
    (pipeId queueId ringBaseAddr ringSizeInDW readPtrAddr : Nat) :
    ((mapComputeQueue c s pipeId queueId ringBaseAddr ringSizeInDW readPtrAddr).1).errPart
      = firstViolation c pipeId queueId ringBaseAddr ringSizeInDW readPtrAddr
    ∧ [GnmMapError.invalidPipeId, GnmMapError.invalidQueueId,
        GnmMapError.invalidRingBaseAddr, GnmMapError.invalidRingSize,
        GnmMapError.invalidReadPtrAddr].Pairwise (fun a b => a ≠ b) := by
  refine ⟨?_, by decide⟩
  unfold mapComputeQueue firstViolation
  split_ifs <;> rfl

/-- Claim C2: under spec-conformant constants, every failing call to
`mapComputeQueue` (any result other than the slot-populating success) leaves
the driver state unchanged: the word at `readPtrAddr` is not written and no
compute-queue slot is populated.  The overflow rejection at SceGnmDriver.cpp
line 225 is unreachable for conformant constants, so the early store at line
222 never becomes visible on a failing call. -/
theorem mapComputeQueue_failure_no_mutation (c : QueueConsts) (hwf : c.wf)
    (s : GnmDriverState) (pipeId queueId ringBaseAddr ringSizeInDW readPtrAddr : Nat)
    (hfail : ((mapComputeQueue c s pipeId queueId ringBaseAddr ringSizeInDW
        readPtrAddr).1).isFailure = true) :
    (mapComputeQueue c s pipeId queueId ringBaseAddr ringSizeInDW readPtrAddr).2 = s := by
  unfold mapComputeQueue at hfail ⊢
  split_ifs at hfail ⊢ with h1 h2 h3 h4 h5 h6
  · rfl
  · rfl
  · rfl
  · rfl
  · rfl
  · exact absurd (hwf.1 pipeId (by omega) queueId (by omega)) (by omega)
  · simp [GnmMapResult.isFailure] at hfail

/-- Witness for C2: with the demonstration constants, a call with an invalid
pipe id fails and leaves the state untouched. -/
theorem mapComputeQueue_failure_no_mutation_witness :
    (mapComputeQueue cDemo sDemo 5 0 0 64 0).2 = sDemo :=
  mapComputeQueue_failure_no_mutation cDemo (by decide) sDemo 5 0 0 64 0 (by decide)

theorem mapComputeQueue_valid_eq (c : QueueConsts) (s : GnmDriverState)
    (pipeId queueId ringBaseAddr ringSizeInDW readPtrAddr : Nat)
    (hp : pipeId < c.maxPipeId) (hq : queueId < c.maxQueueId)
    (hrb : ringBaseAddr % 256 = 0) (hsz : isPowerOfTwo ringSizeInDW = true)
    (hrp : readPtrAddr % 4 = 0)
    (hbound : idOf c pipeId queueId < c.maxComputeQueueCount) :
    mapComputeQueue c s pipeId queueId ringBaseAddr ringSizeInDW readPtrAddr
      = (GnmMapResult.ok (idOf c pipeId queueId),
        { mem := memWrite s.mem readPtrAddr 0,
          computeQueues :=
            s.computeQueues.set (idOf c pipeId queueId - c.vQueueIdBegin) true }) := by
  unfold mapComputeQueue
  rw [if_neg (by omega), if_neg (by omega), if_neg (by omega),
    if_neg (by simp [hsz]), if_neg (by omega), if_neg (by omega)]

/-- Claim C3: under spec-conformant constants, for every valid pipe/queue id
pair with aligned and power-of-two ring parameters, `mapComputeQueue` returns
`VQueueIdBegin + pipeId * MaxPipeId + queueId`; that id lies in
`[VQueueIdBegin, MaxComputeQueueCount)`; distinct valid pairs yield distinct
ids; and the id does not depend on the prior driver state, so the same pair
always yields the same id. -/
theorem mapComputeQueue_success_id (c : QueueConsts) (hwf : c.wf) (s : GnmDriverState)
    (pipeId queueId ringBaseAddr ringSizeInDW readPtrAddr : Nat)
    (hp : pipeId < c.maxPipeId) (hq : queueId < c.maxQueueId)
    (hrb : ringBaseAddr % 256 = 0) (hsz : isPowerOfTwo ringSizeInDW = true)
    (hrp : readPtrAddr % 4 = 0) :
    (mapComputeQueue c s pipeId queueId ringBaseAddr ringSizeInDW readPtrAddr).1
        = GnmMapResult.ok (idOf c pipeId queueId)
    ∧ c.vQueueIdBegin ≤ idOf c pipeId queueId
    ∧ idOf c pipeId queueId < c.maxComputeQueueCount
    ∧ (∀ p2 q2, p2 < c.maxPipeId → q2 < c.maxQueueId →
        idOf c p2 q2 = idOf c pipeId queueId → p2 = pipeId ∧ q2 = queueId)
    ∧ ∀ s2 : GnmDriverState,
        (mapComputeQueue c s2 pipeId queueId ringBaseAddr ringSizeInDW readPtrAddr).1
          = GnmMapResult.ok (idOf c pipeId queueId) := by
  have hbound := hwf.1 pipeId hp queueId hq
  refine ⟨by rw [mapComputeQueue_valid_eq c s pipeId queueId ringBaseAddr ringSizeInDW
      readPtrAddr hp hq hrb hsz hrp hbound], ?_, hbound, ?_, fun s2 => by
      rw [mapComputeQueue_valid_eq c s2 pipeId queueId ringBaseAddr ringSizeInDW
        readPtrAddr hp hq hrb hsz hrp hbound]⟩
  · unfold idOf; omega
  · intro p2 q2 hp2 hq2 heq
    exact (hwf.2 p2 hp2 q2 hq2 pipeId hp queueId hq).mp heq

/-- Witness for C3: with the demonstration constants, mapping pipe 1 queue 1
with a 256-aligned ring base, ring size 64 and a 4-aligned read pointer
returns the formula id, which lies in the valid range. -/
theorem mapComputeQueue_success_id_witness :
    (mapComputeQueue cDemo sDemo 1 1 512 64 8).1 = GnmMapResult.ok (idOf cDemo 1 1)
    ∧ cDemo.vQueueIdBegin ≤ idOf cDemo 1 1
    ∧ idOf cDemo 1 1 < cDemo.maxComputeQueueCount := by
  have h := mapComputeQueue_success_id cDemo (by decide) sDemo 1 1 512 64 8
    (by decide) (by decide) (by decide) (by decide) (by decide)
  exact ⟨h.1, h.2.1, h.2.2.1⟩

/-- Claim C4 (evidence of the code defect): with spec-conformant constants
whose base id is positive, `unmapComputeQueue 0` — an id outside the valid
range `[VQueueIdBegin, MaxComputeQueueCount)` — is not reported as an error,
because the only bounds check compares against `MaxComputeQueueCount`; the
slot index `0 - VQueueIdBegin` wraps in `uint32_t` to `2 ^ 32 - 1`, far
beyond the slot arena (an out-of-bounds access in the C++ source).  By
contrast an id at or above `MaxComputeQueueCount` is reported. -/
theorem unmapComputeQueue_below_begin_unchecked :
    cDemo.wf
    ∧ (unmapComputeQueue cDemo sDemo 0).1 = false
    ∧ unmapSlotIndex cDemo 0 = 4294967295
    ∧ sDemo.computeQueues.length ≤ unmapSlotIndex cDemo 0
    ∧ (unmapComputeQueue cDemo sDemo 8).1 = true := by
  decide

/-- Modelled from the spec: the acquire/present synchronization primitive
pair handed out by `ScePresenter::acquireNextImage` (`PresenterSync` in
ScePresenter.h, which is not among the sources at hand); the two fields are
opaque primitive handles. -/
structure PresenterSync where
  acquire : Nat
  present : Nat
  deriving DecidableEq

/-- Observable operations issued by the submission path of
SceGnmDriver.cpp: recording a DCB into a command list on the graphics queue
(line 134), acquiring the next presentable image with its sync pair (line
149), submitting the command list with its wait/wake primitives (lines
151-155), and presenting (line 157). -/
inductive GpuOp where
  | record (buffer size : Nat)
  | acquireNextImage (sync : PresenterSync) (imageIndex : Nat)
  | submitCmd (cmdList : Nat) (wait wake : Nat)
  | presentCmd (sync : PresenterSync)
  deriving DecidableEq

/-- Modelled from the spec: the external collaborators of the submission
pipeline (`SceGpuQueue::record/submit/present` and
`ScePresenter::acquireNextImage`, whose implementations are not among the
sources at hand).  `recordList` is the opaque command-list producer; `sync`
and `imageIndex` are what the next `acquireNextImage` call yields; per the
spec, the subsequent present uses that same synchronization pair. -/
structure SubmitEnv where
  recordList : Nat → Nat → Nat
  sync : PresenterSync
  imageIndex : Nat

/-- Modelled from the spec: `SCE_OK`, the success sentinel from sce_errors.h
(not among the sources at hand); the spec calls it "a success sentinel". -/
def SCE_OK : Int := 0

/-- Outcome of a submission call: either the fatal `LOG_ASSERT` stop (a
process-stopping contract violation, modelled from the spec since the
`LOG_ASSERT` macro is not among the sources at hand) or a returned status
code together with the ordered trace of operations performed. -/
inductive SubmitOutcome where
  | fatalAssertion
  | ok (status : Int) (trace : List GpuOp)
  deriving DecidableEq

/-- `SceGnmDriver::submitPresent` (SceGnmDriver.cpp, lines 141-160): acquire
the next image and its sync pair, submit the command list with the acquire
primitive as wait and the present primitive as wake, then present. -/
def submitPresent (env : SubmitEnv) (cmdList : Nat) : List GpuOp :=
  [GpuOp.acquireNextImage env.sync env.imageIndex,
    GpuOp.submitCmd cmdList env.sync.acquire env.sync.present,
    GpuOp.presentCmd env.sync]

/-- `SceGnmDriver::submitAndFlipCommandBuffers` (SceGnmDriver.cpp, lines
109-139): `LOG_ASSERT(count == 1)` stops the process for any other count;
otherwise the single DCB pointer/size is recorded into a command list via the
graphics queue, `submitPresent` runs, and `SCE_OK` is returned.  The DCB
pointer and size arrays are modelled as index functions; only index 0 is
read. -/
def submitAndFlipCommandBuffers (env : SubmitEnv) (count : Nat)
    (dcbGpuAddrs dcbSizesInBytes : Nat → Nat) : SubmitOutcome :=
  if count ≠ 1 then
    SubmitOutcome.fatalAssertion
  else
    SubmitOutcome.ok SCE_OK
      (GpuOp.record (dcbGpuAddrs 0) (dcbSizesInBytes 0)
        :: submitPresent env (env.recordList (dcbGpuAddrs 0) (dcbSizesInBytes 0)))

/-- A demonstration environment for witnesses: the recorded command-list id
encodes the buffer and size, the sync pair is (7, 9), the image index 0. -/
def envDemo : SubmitEnv := ⟨fun b s => b + s + 1000, ⟨7, 9⟩, 0⟩

/-- Claim C5: `submitAndFlipCommandBuffers` accepts exactly one command
buffer per call: any `count ≠ 1` triggers the fatal assertion and never a
recoverable status, and with `count = 1` the assertion branch is
unreachable. -/
theorem submitAndFlip_count_contract (env : SubmitEnv) (count : Nat)
    (dcbGpuAddrs dcbSizesInBytes : Nat → Nat) :
    (count ≠ 1 →
      submitAndFlipCommandBuffers env count dcbGpuAddrs dcbSizesInBytes
        = SubmitOutcome.fatalAssertion)
    ∧ (count = 1 →
      submitAndFlipCommandBuffers env count dcbGpuAddrs dcbSizesInBytes
        ≠ SubmitOutcome.fatalAssertion)
    ∧ ∀ status trace,
        submitAndFlipCommandBuffers env count dcbGpuAddrs dcbSizesInBytes
          = SubmitOutcome.ok status trace → count = 1 := by
  refine ⟨fun hne => ?_, fun heq => ?_, fun status trace h => ?_⟩
  · simp [submitAndFlipCommandBuffers, hne]
  · simp [submitAndFlipCommandBuffers, heq]
  · by_contra hne
    simp [submitAndFlipCommandBuffers, hne] at h

/-- Witness for C5: a two-buffer call hits the fatal assertion; a one-buffer
call does not. -/
theorem submitAndFlip_count_contract_witness :
    submitAndFlipCommandBuffers envDemo 2 (fun i => i) (fun i => i)
        = SubmitOutcome.fatalAssertion
    ∧ submitAndFlipCommandBuffers envDemo 1 (fun i => i) (fun i => i)
        ≠ SubmitOutcome.fatalAssertion :=
  ⟨(submitAndFlip_count_contract envDemo 2 (fun i => i) (fun i => i)).1 (by decide),
    (submitAndFlip_count_contract envDemo 1 (fun i => i) (fun i => i)).2.1 rfl⟩

/-- Claim C6: every `count = 1` call performs exactly four operations in this
fixed order, none skipped: record the single DCB pointer/size, acquire the
next presentable image with its sync pair, submit the recorded command list
with the acquire primitive as wait and the present primitive as wake, and
present with that same pair; the call returns the success sentinel. -/
theorem submitAndFlip_single_buffer_steps (env : SubmitEnv)
    (dcbGpuAddrs dcbSizesInBytes : Nat → Nat) :
    submitAndFlipCommandBuffers env 1 dcbGpuAddrs dcbSizesInBytes
      = SubmitOutcome.ok SCE_OK
          [GpuOp.record (dcbGpuAddrs 0) (dcbSizesInBytes 0),
            GpuOp.acquireNextImage env.sync env.imageIndex,
            GpuOp.submitCmd (env.recordList (dcbGpuAddrs 0) (dcbSizesInBytes 0))
              env.sync.acquire env.sync.present,
            GpuOp.presentCmd env.sync] := by
  simp [submitAndFlipCommandBuffers, submitPresent]
